import Mathlib

/-!
Verification of `serve.py`, a static-file development HTTP server.

The server subclasses `http.server.SimpleHTTPRequestHandler`, overriding
`end_headers` (to append three CORS headers and, for request targets ending
in `.js`/`.jsx`/`.json`, an extra `Content-Type` header) and adding a
`do_OPTIONS` method.  The `__main__` block binds a `TCPServer` on a constant
port, prints a banner, and serves until `KeyboardInterrupt`.

We embed the request-handling path as pure functions: a response is a status
code, an ordered list of header lines, and a body.  The pieces of the Python
standard library that the subclass inherits and that the behaviour depends on
(`send_response`, `send_error`, `SimpleHTTPRequestHandler.do_GET`/`do_HEAD`,
`BaseHTTPRequestHandler`'s 501 for unsupported methods, `translate_path`'s
query/fragment stripping) are embedded alongside, with filesystem contents,
MIME guessing and date strings supplied as parameters of an environment.
-/

/-- A single response header line: name and value, in send order. -/
abbrev Header := String × String

/-- Python `s.endswith(suffix)`: the suffix's characters are a suffix of
`s`'s characters. -/
def endswith (s suffix : String) : Bool := decide (suffix.data <:+ s.data)

/-- The three CORS headers appended unconditionally by the overridden
`end_headers` (serve.py lines 17-19), in source order. -/
def corsHeaders : List Header :=
  [("Access-Control-Allow-Origin", "*"),
   ("Access-Control-Allow-Methods", "GET, POST, OPTIONS"),
   ("Access-Control-Allow-Headers", "Content-Type")]

/-- The conditional `Content-Type` header appended by the overridden
`end_headers` (serve.py lines 22-25): `.js`/`.jsx` and `.json` suffixes of
`self.path` are special-cased, in that order; anything else adds nothing. -/
def contentTypeOverride (path : String) : List Header :=
  if endswith path ".js" || endswith path ".jsx" then
    [("Content-Type", "application/javascript; charset=utf-8")]
  else if endswith path ".json" then
    [("Content-Type", "application/json; charset=utf-8")]
  else []

/-- The overridden `end_headers` (serve.py lines 15-27).  `send_header`
appends to the handler's header buffer, so the finalized header list is the
buffer accumulated so far, then the three CORS headers, then the conditional
`Content-Type`; `super().end_headers()` flushes them in that order. -/
def end_headers (path : String) (buf : List Header) : List Header :=
  buf ++ corsHeaders ++ contentTypeOverride path

/-- Environment of a handled request: everything the inherited standard
library code reads.  `fs` maps translated filesystem paths to file contents
(`none` = not found); `guessType` is the stdlib MIME guess; `serverLine`,
`dateLine`, `lastModified` and `errorPage` stand for the stdlib's
`version_string()`, `date_time_string()`, per-file mtime strings and HTML
error pages. -/
structure Env where
  root : String
  fs : String → Option String
  guessType : String → String
  serverLine : String
  dateLine : String
  lastModified : String → String
  errorPage : Nat → String

/-- Query/fragment stripping done by the stdlib `translate_path` before the
request target is mapped to the filesystem: everything from the first `?` is
dropped (`path.split('?',1)[0]`), then everything from the first `#`.
(The stdlib also normalizes dot segments; no claim depends on that, and no
modelled path contains them.) -/
def stripQueryFragment (p : String) : String :=
  ⟨(p.data.takeWhile (fun c => c ≠ '?')).takeWhile (fun c => c ≠ '#')⟩

/-- Stdlib `translate_path` restricted to what the claims need: the serving
root joined with the query- and fragment-stripped request target. -/
def translatePath (root p : String) : String :=
  root ++ stripQueryFragment p

/-- Stdlib `BaseHTTPRequestHandler.send_response`: the Server and Date
headers it buffers (the status line is kept separately in `Response`). -/
def sendResponseHeaders (env : Env) : List Header :=
  [("Server", env.serverLine), ("Date", env.dateLine)]

/-- A finalized HTTP response: status code, header lines in send order,
body bytes. -/
structure Response where
  status : Nat
  headers : List Header
  body : String

/-- Stdlib `BaseHTTPRequestHandler.send_error`: buffers Server/Date,
`Connection: close`, the error content type and length, then finalizes via
the (overridden) `end_headers` and sends the stdlib HTML error body. -/
def send_error (env : Env) (path : String) (code : Nat) : Response :=
  { status := code
    headers := end_headers path
      (sendResponseHeaders env ++
        [("Connection", "close"),
         ("Content-Type", "text/html;charset=utf-8"),
         ("Content-Length", toString (env.errorPage code).length)])
    body := env.errorPage code }

/-- Stdlib `SimpleHTTPRequestHandler.do_GET` (via `send_head`): translate
the target, look it up; on success buffer Server/Date, the guessed
`Content-type`, length and mtime, finalize via the overridden `end_headers`
and stream the file; on a miss, `send_error(404)`. -/
def do_GET (env : Env) (path : String) : Response :=
  match env.fs (translatePath env.root path) with
  | some contents =>
      { status := 200
        headers := end_headers path
          (sendResponseHeaders env ++
            [("Content-type", env.guessType (translatePath env.root path)),
             ("Content-Length", toString contents.length),
             ("Last-Modified", env.lastModified (translatePath env.root path))])
        body := contents }
  | none => send_error env path 404

/-- Stdlib `SimpleHTTPRequestHandler.do_HEAD`: identical headers to a GET of
the same target, with no body. -/
def do_HEAD (env : Env) (path : String) : Response :=
  { do_GET env path with body := "" }

/-- The repository's `do_OPTIONS` (serve.py lines 29-31): `send_response(200)`
then `end_headers()`, never consulting the filesystem; the body is empty. -/
def do_OPTIONS (env : Env) (path : String) : Response :=
  { status := 200
    headers := end_headers path (sendResponseHeaders env)
    body := "" }

/-- Dispatch of one parsed request, as `BaseHTTPRequestHandler` does it:
`do_<METHOD>` when the handler defines it (GET and HEAD inherited, OPTIONS
from the subclass), otherwise `send_error(501)`. -/
def handle (env : Env) (method path : String) : Response :=
  if method == "GET" then do_GET env path
  else if method == "HEAD" then do_HEAD env path
  else if method == "OPTIONS" then do_OPTIONS env path
  else send_error env path 501

/-- HTTP header names are case-insensitive; the senders in this model write
the content type in exactly two spellings, `Content-type` (stdlib success
path) and `Content-Type` (serve.py and the stdlib error path), so matching
those two is a full case-insensitive match over the model. -/
def isContentType (h : Header) : Bool :=
  h.1 == "Content-Type" || h.1 == "Content-type"

/-- Values of all content-type header lines of a response, in send order. -/
def contentTypeValues (hs : List Header) : List String :=
  (hs.filter isContentType).map Prod.snd

/-- The value of the last content-type header line, the one a last-wins
client takes effect from. -/
def lastContentType (hs : List Header) : Option String :=
  (contentTypeValues hs).getLast?

/-- Number of content-type header lines in a response. -/
def countContentType (hs : List Header) : Nat :=
  (hs.filter isContentType).length

/-! ### Helper lemmas -/

/-- A string ending in a nonempty suffix has the suffix's last character. -/
lemma endswith_getLast (p s : String) (h : endswith p s = true)
    (hne : s.data ≠ []) : p.data.getLast? = s.data.getLast? := by
  have hs : s.data <:+ p.data := of_decide_eq_true h
  obtain ⟨t, ht⟩ := hs
  rw [← ht]
  exact List.getLast?_append_of_ne_nil t hne

/-- A path ending in `.json` cannot also end in `.js`. -/
lemma endswith_json_not_js (p : String) (h : endswith p ".json" = true) :
    endswith p ".js" = false := by
  apply decide_eq_false
  intro hjs
  have h1 := endswith_getLast p ".json" h (by decide)
  have h2 := endswith_getLast p ".js" (decide_eq_true hjs) (by decide)
  exact absurd (h1.symm.trans h2) (by decide)

/-- A path ending in `.json` cannot also end in `.jsx`. -/
lemma endswith_json_not_jsx (p : String) (h : endswith p ".json" = true) :
    endswith p ".jsx" = false := by
  apply decide_eq_false
  intro hjs
  have h1 := endswith_getLast p ".json" h (by decide)
  have h2 := endswith_getLast p ".jsx" (decide_eq_true hjs) (by decide)
  exact absurd (h1.symm.trans h2) (by decide)

/-- Every dispatch branch finalizes its headers through the overridden
`end_headers`, on the full request target. -/
lemma do_GET_headers_shape (env : Env) (p : String) :
    ∃ buf, (do_GET env p).headers = end_headers p buf := by
  unfold do_GET
  cases hfs : env.fs (translatePath env.root p) with
  | some c => exact ⟨_, rfl⟩
  | none => exact ⟨_, rfl⟩

/-- Header shape of the full dispatcher: some buffer, finalized through the
overridden `end_headers` on the full request target. -/
lemma handle_headers_shape (env : Env) (m p : String) :
    ∃ buf, (handle env m p).headers = end_headers p buf := by
  unfold handle
  split
  · exact do_GET_headers_shape env p
  · split
    · obtain ⟨b, hb⟩ := do_GET_headers_shape env p
      exact ⟨b, by rw [show (do_HEAD env p).headers = (do_GET env p).headers from rfl, hb]⟩
    · split
      · exact ⟨_, rfl⟩
      · exact ⟨_, rfl⟩

/-- The content-type lines of a finalized header list are those of the
buffer followed by the conditional override. -/
lemma ct_values_end_headers (p : String) (buf : List Header) :
    contentTypeValues (end_headers p buf) =
      contentTypeValues buf ++ (contentTypeOverride p).map Prod.snd := by
  unfold end_headers contentTypeValues
  rw [List.filter_append, List.filter_append, List.map_append, List.map_append]
  have h1 : corsHeaders.filter isContentType = [] := by decide
  have h2 : (contentTypeOverride p).filter isContentType = contentTypeOverride p := by
    unfold contentTypeOverride
    split
    · decide
    · split
      · decide
      · decide
  rw [h1, h2]
  simp

/-- When the suffix test fires, the last content-type line of the finalized
headers is the injected value, whatever the buffer held. -/
lemma lastContentType_end_headers (p : String) (buf : List Header) (v : String)
    (hov : contentTypeOverride p = [("Content-Type", v)]) :
    lastContentType (end_headers p buf) = some v := by
  unfold lastContentType
  rw [ct_values_end_headers, hov]
  simp only [List.map_cons, List.map_nil]
  rw [List.getLast?_append_cons]
  rfl

/-! ### Claim theorems: header injection -/

/-- C1: for every request handled by the server, regardless of HTTP method
or request path (including OPTIONS responses and 404/501 error responses),
the response carries the three CORS headers with exactly these values. -/
theorem cors_headers_on_every_response (env : Env) (m p : String) :
    ("Access-Control-Allow-Origin", "*") ∈ (handle env m p).headers ∧
    ("Access-Control-Allow-Methods", "GET, POST, OPTIONS") ∈ (handle env m p).headers ∧
    ("Access-Control-Allow-Headers", "Content-Type") ∈ (handle env m p).headers := by
  obtain ⟨buf, hb⟩ := handle_headers_shape env m p
  rw [hb]
  refine ⟨?_, ?_, ?_⟩ <;>
  · unfold end_headers corsHeaders
    simp

/-- C3: for every request (any method) whose target ends in the
case-sensitive suffix `.js` or `.jsx`, the effective (last-sent)
Content-Type header of the response is `application/javascript;
charset=utf-8`. -/
theorem js_suffix_content_type (env : Env) (m p : String)
    (h : endswith p ".js" = true ∨ endswith p ".jsx" = true) :
    lastContentType (handle env m p).headers =
      some "application/javascript; charset=utf-8" := by
  obtain ⟨buf, hb⟩ := handle_headers_shape env m p
  rw [hb]
  apply lastContentType_end_headers
  have hc : (endswith p ".js" || endswith p ".jsx") = true := by
    rcases h with h | h <;> simp [h]
  unfold contentTypeOverride
  simp [hc]

/-- Closed instance of `js_suffix_content_type` at a concrete request. -/
theorem js_suffix_content_type_witness :
    lastContentType (handle
      { root := "", fs := fun _ => none, guessType := fun _ => "text/plain",
        serverLine := "s", dateLine := "d", lastModified := fun _ => "m",
        errorPage := fun _ => "e" } "GET" "/src/main.jsx").headers =
      some "application/javascript; charset=utf-8" :=
  js_suffix_content_type _ "GET" "/src/main.jsx" (Or.inr (by decide))

/-- C4: for every request (any method) whose target ends in the
case-sensitive suffix `.json`, the effective (last-sent) Content-Type header
of the response is `application/json; charset=utf-8`. -/
theorem json_suffix_content_type (env : Env) (m p : String)
    (h : endswith p ".json" = true) :
    lastContentType (handle env m p).headers =
      some "application/json; charset=utf-8" := by
  obtain ⟨buf, hb⟩ := handle_headers_shape env m p
  rw [hb]
  apply lastContentType_end_headers
  unfold contentTypeOverride
  simp [endswith_json_not_js p h, endswith_json_not_jsx p h, h]

/-- Closed instance of `json_suffix_content_type` at a concrete request. -/
theorem json_suffix_content_type_witness :
    lastContentType (handle
      { root := "", fs := fun _ => none, guessType := fun _ => "text/plain",
        serverLine := "s", dateLine := "d", lastModified := fun _ => "m",
        errorPage := fun _ => "e" } "GET" "/db.json").headers =
      some "application/json; charset=utf-8" :=
  json_suffix_content_type _ "GET" "/db.json" (by decide)

/-- C2: an OPTIONS request to any path gets status 200, an empty body and
the three CORS headers, and the response does not depend on the filesystem
at all (in particular it is the same whether or not the path exists). -/
theorem options_request_contract (env : Env) (p : String)
    (fs₂ : String → Option String) :
    (handle env "OPTIONS" p).status = 200 ∧
    (handle env "OPTIONS" p).body = "" ∧
    ("Access-Control-Allow-Origin", "*") ∈ (handle env "OPTIONS" p).headers ∧
    ("Access-Control-Allow-Methods", "GET, POST, OPTIONS") ∈ (handle env "OPTIONS" p).headers ∧
    ("Access-Control-Allow-Headers", "Content-Type") ∈ (handle env "OPTIONS" p).headers ∧
    handle { env with fs := fs₂ } "OPTIONS" p = handle env "OPTIONS" p := by
  have hred : handle env "OPTIONS" p = do_OPTIONS env p := rfl
  refine ⟨rfl, rfl, ?_, ?_, ?_, rfl⟩ <;>
  · rw [hred]
    show _ ∈ end_headers p (sendResponseHeaders env)
    unfold end_headers corsHeaders
    simp

/-- C7: when the request target ends in none of `.js`, `.jsx`, `.json`, the
injection step adds no Content-Type header of its own: it contributes
exactly the three CORS headers and leaves the buffered headers (and hence
the underlying handler's content-type guess) unchanged. -/
theorem other_suffix_adds_only_cors (p : String) (buf : List Header)
    (h1 : endswith p ".js" = false) (h2 : endswith p ".jsx" = false)
    (h3 : endswith p ".json" = false) :
    contentTypeOverride p = [] ∧ end_headers p buf = buf ++ corsHeaders := by
  have hov : contentTypeOverride p = [] := by
    unfold contentTypeOverride
    simp [h1, h2, h3]
  refine ⟨hov, ?_⟩
  unfold end_headers
  rw [hov, List.append_nil]

/-- Closed instance of `other_suffix_adds_only_cors` at a concrete path. -/
theorem other_suffix_adds_only_cors_witness :
    contentTypeOverride "/style.css" = [] ∧
    end_headers "/style.css" [("Server", "s")] = [("Server", "s")] ++ corsHeaders :=
  other_suffix_adds_only_cors "/style.css" [("Server", "s")]
    (by decide) (by decide) (by decide)

/-- Concrete filesystem for evaluating the model: a JavaScript file at
`/app.js` and an extensionless file at `/data`. -/
def fsDemo : String → Option String := fun q =>
  if q = "/app.js" then some "console.log(1)"
  else if q = "/data" then some "payload"
  else none

/-- Concrete environment for evaluating the model, with a MIME guesser that
answers `text/plain` for everything. -/
def envDemo : Env :=
  { root := ""
    fs := fsDemo
    guessType := fun _ => "text/plain"
    serverLine := "SimpleHTTP/0.6 Python/3.12"
    dateLine := "Mon, 01 Jan 2024 00:00:00 GMT"
    lastModified := fun _ => "Mon, 01 Jan 2024 00:00:00 GMT"
    errorPage := fun _ => "<html>404</html>" }

/-- C9: the suffix test runs on the full request target including any query
string: `/app.js?v=1` (an existing file) is NOT given the JavaScript
override and keeps the underlying guess, while `/data?f=.js` (whose file
path does not end in `.js`) IS given the override. -/
theorem suffix_test_uses_full_request_target :
    lastContentType (handle envDemo "GET" "/app.js?v=1").headers = some "text/plain" ∧
    lastContentType (handle envDemo "GET" "/data?f=.js").headers =
      some "application/javascript; charset=utf-8" ∧
    "text/plain" ≠ "application/javascript; charset=utf-8" := by
  refine ⟨?_, ?_, by decide⟩ <;> rfl

/-- C10: on a successful GET of an existing file whose target ends in
`.js`, `.jsx` or `.json`, the injected Content-Type line is appended in
addition to the one the underlying handler buffered: the response carries
exactly two content-type lines, the underlying guess first, the injected
value last. -/
theorem duplicate_content_type_on_success (env : Env) (p c : String)
    (hf : env.fs (translatePath env.root p) = some c)
    (hsuf : endswith p ".js" = true ∨ endswith p ".jsx" = true ∨
            endswith p ".json" = true) :
    contentTypeValues (handle env "GET" p).headers =
      [env.guessType (translatePath env.root p),
       if endswith p ".js" || endswith p ".jsx" then
         "application/javascript; charset=utf-8"
       else "application/json; charset=utf-8"] ∧
    countContentType (handle env "GET" p).headers = 2 := by
  have hshape : (handle env "GET" p).headers = end_headers p
      (sendResponseHeaders env ++
        [("Content-type", env.guessType (translatePath env.root p)),
         ("Content-Length", toString c.length),
         ("Last-Modified", env.lastModified (translatePath env.root p))]) := by
    show (do_GET env p).headers = _
    unfold do_GET
    rw [hf]
  have hcount : ∀ hs : List Header,
      countContentType hs = (contentTypeValues hs).length := by
    intro hs
    unfold countContentType contentTypeValues
    rw [List.length_map]
  have hmain : contentTypeValues (handle env "GET" p).headers =
      [env.guessType (translatePath env.root p),
       if endswith p ".js" || endswith p ".jsx" then
         "application/javascript; charset=utf-8"
       else "application/json; charset=utf-8"] := by
    rw [hshape, ct_values_end_headers]
    have hbuf : contentTypeValues
        (sendResponseHeaders env ++
          [("Content-type", env.guessType (translatePath env.root p)),
           ("Content-Length", toString c.length),
           ("Last-Modified", env.lastModified (translatePath env.root p))]) =
        [env.guessType (translatePath env.root p)] := rfl
    rw [hbuf]
    cases hb : endswith p ".js" || endswith p ".jsx" with
    | false =>
        have hjson : endswith p ".json" = true := by
          rcases hsuf with h | h | h
          · rw [h] at hb; simp at hb
          · rw [h] at hb; simp at hb
          · exact h
        have hov : contentTypeOverride p =
            [("Content-Type", "application/json; charset=utf-8")] := by
          unfold contentTypeOverride
          simp [hb, hjson]
        rw [hov]
        simp [hb]
    | true =>
        have hov : contentTypeOverride p =
            [("Content-Type", "application/javascript; charset=utf-8")] := by
          unfold contentTypeOverride
          simp [hb]
        rw [hov]
        simp [hb]
  refine ⟨hmain, ?_⟩
  rw [hcount, hmain]
  rfl

/-- Closed instance of `duplicate_content_type_on_success` at a concrete
GET of the existing file `/app.js`. -/
theorem duplicate_content_type_on_success_witness :
    contentTypeValues (handle envDemo "GET" "/app.js").headers =
      [envDemo.guessType (translatePath envDemo.root "/app.js"),
       if endswith "/app.js" ".js" || endswith "/app.js" ".jsx" then
         "application/javascript; charset=utf-8"
       else "application/json; charset=utf-8"] ∧
    countContentType (handle envDemo "GET" "/app.js").headers = 2 :=
  duplicate_content_type_on_success envDemo "/app.js" "console.log(1)"
    rfl (Or.inl (by decide))

/-! ### Process-level model of the `__main__` block -/

/-- The constant port (serve.py line 12); no CLI flag reads or changes it. -/
def PORT : Nat := 8000

/-- The startup banner printed once the socket is bound (serve.py lines
37-64), with the port constant interpolated.  Informational only; no claim
depends on its text, so the decorative box-drawing border rows (runs of the
`=`-like box character) are elided here and only the content lines are
kept. -/
def startupBanner : String :=
  "\n🔬 Forensic Legal Analyzer v2.0 - Development Server\n\nServer running at: http://localhost:8000\n\n📖 Available endpoints:\n   • http://localhost:8000/index-modular.html  (Modular Version)\n   • http://localhost:8000/index.html          (Original Version)\n\n📁 Module locations:\n   • /src/main.jsx              (Main Application)\n   • /src/analyzers/            (Analysis Engines)\n   • /src/storage/              (Data Storage)\n   • /src/utils/                (Utilities)\n   • /src/data/                 (Statute Database)\n\n🛠️  Development tips:\n   • Open browser DevTools to see module loading\n   • Check Network tab for ES6 module imports\n   • Console shows initialization progress\n   • Modules are cached by browser\n\nPress Ctrl+C to stop the server\n        "

/-- The shutdown acknowledgment printed when `KeyboardInterrupt` is caught
(serve.py line 69). -/
def shutdownMessage : String := "\n\n✅ Server stopped"

/-- Outcome of `socketserver.TCPServer((\x22\x22, PORT), Handler)`: either the
listening socket binds, or the constructor raises `OSError` (port already
in use, insufficient privilege) carrying a diagnostic message. -/
inductive BindOutcome where
  | bound
  | osError (diagnostic : String)

/-- Observable outcome of a finished process run: exit status, what was
printed, whether a listening socket is still open, and how many bind
attempts were made. -/
structure ProcessOutcome where
  exitCode : Nat
  printed : List String
  listeningSocketOpen : Bool
  bindAttempts : Nat

/-- The `__main__` block (serve.py lines 33-70) with the Python-runtime
semantics the code relies on made explicit.  The single `TCPServer` call is
the only bind attempt.  If it raises, nothing catches the `OSError`: the
interpreter prints the traceback (ending in the `OSError` message) and the
process exits with status 1, no socket having been bound.  If it binds, the
banner is printed and `serve_forever()` runs; the only modelled exit from
the loop is `KeyboardInterrupt` (an operating-system interrupt), which the
`try` catches, printing the shutdown message; the `with` block then closes
the listening socket and the process falls off the end of the script,
exiting with status 0.  `none` means the process is still serving. -/
def serverMain (bind : BindOutcome) (interruptReceived : Bool) :
    Option ProcessOutcome :=
  match bind with
  | .osError diagnostic =>
      some { exitCode := 1
             printed := ["Traceback (most recent call last):",
                         "OSError: " ++ diagnostic]
             listeningSocketOpen := false
             bindAttempts := 1 }
  | .bound =>
      if interruptReceived then
        some { exitCode := 0
               printed := [startupBanner, shutdownMessage]
               listeningSocketOpen := false
               bindAttempts := 1 }
      else none

/-- C5: a bind failure at startup is fatal: the process terminates with a
non-zero exit status and a diagnostic message, leaves no listening socket
open, and makes no second bind attempt. -/
theorem bind_failure_fatal (diagnostic : String) (i : Bool) :
    ∃ out, serverMain (BindOutcome.osError diagnostic) i = some out ∧
      out.exitCode ≠ 0 ∧
      ("OSError: " ++ diagnostic) ∈ out.printed ∧
      out.listeningSocketOpen = false ∧
      out.bindAttempts = 1 := by
  refine ⟨_, rfl, ?_, ?_, ?_, ?_⟩
  · exact Nat.one_ne_zero
  · simp
  · rfl
  · rfl

/-- C6: an operating-system interrupt while serving makes the listening
loop exit (without one the process keeps serving), the socket is closed,
the shutdown acknowledgment is printed, and the exit status is 0. -/
theorem interrupt_clean_shutdown :
    (∃ out, serverMain BindOutcome.bound true = some out ∧
      out.exitCode = 0 ∧ shutdownMessage ∈ out.printed ∧
      out.listeningSocketOpen = false) ∧
    serverMain BindOutcome.bound false = none := by
  refine ⟨⟨_, rfl, ?_, ?_, ?_⟩, rfl⟩
  · rfl
  · simp
  · rfl

/-- The two configuration values fixed at startup: the bound port and the
serving root (serve.py lines 34-36: `directory=os.getcwd()` captured once,
`TCPServer((\x22\x22, PORT), ...)`). -/
structure ServerConfig where
  port : Nat
  rootDir : String

/-- Configuration captured at startup: the constant port and the working
directory at launch. -/
def startupConfig (cwd : String) : ServerConfig :=
  { port := PORT, rootDir := cwd }

/-- One request handled during the serving loop: the response is computed
from the captured configuration's root, and no handler code assigns to the
port or the directory, so the configuration is threaded through
unchanged. -/
def handleStep (cfg : ServerConfig) (env : Env) (m p : String) :
    ServerConfig × Response :=
  (cfg, handle { env with root := cfg.rootDir } m p)

/-- The serving loop over a finite trace of requests, threading the
configuration through every step. -/
def runRequests (cfg : ServerConfig) (env : Env) :
    List (String × String) → ServerConfig × List Response
  | [] => (cfg, [])
  | (m, p) :: rs =>
      let first := handleStep cfg env m p
      let rest := runRequests first.1 env rs
      (rest.1, first.2 :: rest.2)

/-- C8: the bound port (the constant 8000) and the serving root captured at
startup are unchanged after any sequence of handled requests: no
request-handling step alters either. -/
theorem port_and_root_fixed (cwd : String) (env : Env)
    (reqs : List (String × String)) :
    (runRequests (startupConfig cwd) env reqs).1 = startupConfig cwd ∧
    PORT = 8000 ∧ (startupConfig cwd).port = 8000 ∧
    (startupConfig cwd).rootDir = cwd := by
  refine ⟨?_, rfl, rfl, rfl⟩
  have key : ∀ (rs : List (String × String)) (cfg : ServerConfig),
      (runRequests cfg env rs).1 = cfg := by
    intro rs
    induction rs with
    | nil => intro cfg; rfl
    | cons r rs ih =>
        intro cfg
        cases r with
        | mk m p => simpa [runRequests, handleStep] using ih cfg
  exact key reqs _
